import Mathlib

/-!
Shallow embedding of `src/main.rs` of the imgur-downloader repository.

Strings from the Rust side are modelled as `List Char` (Rust's `rfind` returns
a byte index, but the only separator searched for is the one-byte character
`/`, so the byte-level suffix taken by the source coincides with the
character-level suffix after the last `/`).  Media byte streams are modelled
as `List Nat`.  Fallible operations return `Option`/`Except`, network and
filesystem effects are passed in explicitly as oracle values.
-/

/-- Rust `char::is_ascii_alphanumeric`: true exactly on `0-9`, `A-Z`, `a-z`. -/
def char_is_ascii_alphanumeric (c : Char) : Bool :=
  (48 ≤ c.toNat && c.toNat ≤ 57) ||
  (65 ≤ c.toNat && c.toNat ≤ 90) ||
  (97 ≤ c.toNat && c.toNat ≤ 122)

/-- Rust `is_ascii_alphanumeric(s: &str)`: `s.chars().all(|c| c.is_ascii_alphanumeric())`. -/
def is_ascii_alphanumeric (s : List Char) : Bool :=
  s.all char_is_ascii_alphanumeric

/-- The suffix of `s` after the last occurrence of the character `/`, or
`none` when `s` has no `/`.  This models `s.get(s.rfind('/')? + 1..)?` from
the source: `rfind` yields the byte index of the last `/`, and the byte
suffix starting one past a one-byte character is its character suffix (the
inner `?` on `get` never fires because that index is a character boundary). -/
def after_last_slash : List Char → Option (List Char)
  | [] => none
  | c :: cs =>
    match after_last_slash cs with
    | some t => some t
    | none => if c = '/' then some cs else none

/-- Rust `extract_album_id_from_argument`. -/
def extract_album_id_from_argument (s : List Char) : Option (List Char) :=
  if is_ascii_alphanumeric s && !s.isEmpty then
    some s
  else
    match after_last_slash s with
    | none => none
    | some t =>
      if is_ascii_alphanumeric t && !t.isEmpty then some t else none

/-- Rust struct `MediaResponse`: one media descriptor from the album metadata. -/
structure MediaResponse where
  url : String
  ext : String
  size : Nat
deriving Repr, DecidableEq

/-- Result of one `download_media` call: whether it returned `Ok`, the bytes of
the destination file afterwards, and whether a network request for the media
bytes was issued. -/
structure DownloadOutcome where
  ok : Bool
  file : List Nat
  fetched : Bool
deriving Repr, DecidableEq

/-- Rust `download_media(media, destination, client)`.

`file0` is the state of the destination file before the call (`none` =
absent); `fetch` is the oracle for `get_media` followed by `io::copy`
(`Except.ok bytes` = the full stream, `Except.error` = the fetch or copy
failed).  The source opens the file with `create(true).write(true)` and no
truncate, so an absent file becomes an empty one; it then compares
`media.size` with the file length: on equality it returns `Ok` at once,
touching neither the file nor the network; otherwise it runs `set_len(0)`
(truncation happens before the fetch) and copies the fetched stream into
the file. -/
def download_media (media : MediaResponse) (file0 : Option (List Nat))
    (fetch : Except String (List Nat)) : DownloadOutcome :=
  let file := file0.getD []
  if media.size = file.length then
    ⟨true, file, false⟩
  else
    match fetch with
    | .error _ => ⟨false, [], true⟩
    | .ok bytes => ⟨true, bytes, true⟩

/-- Environment of one per-item download task: the item's metadata, the
initial state of its destination file, and its media-fetch oracle. -/
structure ItemEnv where
  media : MediaResponse
  file0 : Option (List Nat)
  fetch : Except String (List Nat)

/-- Observable outcome of `main_`: the returned `Result`, whether the
destination directory creation step ran, and the outcome of every per-item
download task. -/
structure MainOutcome where
  result : Except String Unit
  dirCreated : Bool
  downloads : List DownloadOutcome

/-- Rust `main_`, after argument parsing.  `albumFetch` is the oracle for
`get_album` (`Except.error` = metadata fetch or parse failed).  The source
propagates a metadata failure with `?` before `create_dir_all` runs; on
success it creates the directory and then runs one download task per media
item with `for_each_concurrent`, where each task catches its own
`download_media` error and only logs it, and finally returns `Ok(())`
unconditionally. -/
def main_ (albumFetch : Except String (List ItemEnv)) : MainOutcome :=
  match albumFetch with
  | .error e => ⟨.error e, false, []⟩
  | .ok items =>
    ⟨.ok (), true, items.map fun it => download_media it.media it.file0 it.fetch⟩

/-- Rust `fn main`: the process exit status determined by the `Result` that
`main_` returns (anyhow's `Result<()>` main: `Ok` exits 0, `Err` exits
non-zero). -/
def exit_code (r : Except String Unit) : Nat :=
  match r with
  | .ok _ => 0
  | .error _ => 1

/-! ### Facts about the album-id extractor -/

theorem char_slash_not_alphanumeric : char_is_ascii_alphanumeric '/' = false := by
  decide

theorem after_last_slash_of_not_mem {s : List Char} (h : '/' ∉ s) :
    after_last_slash s = none := by
  induction s with
  | nil => rfl
  | cons c cs ih =>
    have hc : ¬c = '/' := fun hc => h (hc ▸ List.mem_cons_self c cs)
    have hcs : '/' ∉ cs := fun hm => h (List.mem_cons_of_mem c hm)
    simp [after_last_slash, ih hcs, hc]

theorem after_last_slash_append {p id : List Char} (h : '/' ∉ id) :
    after_last_slash (p ++ '/' :: id) = some id := by
  induction p with
  | nil => simp [after_last_slash, after_last_slash_of_not_mem h]
  | cons c p ih => simp [after_last_slash, ih]

theorem is_ascii_alphanumeric_slash_append (p id : List Char) :
    is_ascii_alphanumeric (p ++ '/' :: id) = false := by
  simp [is_ascii_alphanumeric, List.all_append, List.all_cons,
    char_slash_not_alphanumeric]

/-- C6: for every non-empty string consisting only of ASCII alphanumeric
characters, `extract_album_id_from_argument` accepts it and returns it
verbatim. -/
theorem c6_extract_album_id_verbatim (s : List Char) (hne : s ≠ [])
    (halnum : is_ascii_alphanumeric s = true) :
    extract_album_id_from_argument s = some s := by
  cases s with
  | nil => exact absurd rfl hne
  | cons c cs => simp [extract_album_id_from_argument, halnum]

/-- Witness for C6 at the concrete input `aA1b`. -/
theorem c6_witness :
    extract_album_id_from_argument ['a', 'A', '1', 'b'] = some ['a', 'A', '1', 'b'] :=
  c6_extract_album_id_verbatim _ (by decide) (by decide)

/-- C7: on a string that is not wholly non-empty-alphanumeric, the extractor
returns the substring after the last `/` exactly when that substring is
non-empty and ASCII-alphanumeric; it fails on the empty string, on a string
ending in `/` (the trailing segment is empty), and on any string with no
valid trailing segment (in particular a non-alphanumeric string with no `/`
at all). -/
theorem c7_extract_album_id_url :
    (∀ p id : List Char, '/' ∉ id →
      extract_album_id_from_argument (p ++ '/' :: id) =
        if id ≠ [] ∧ is_ascii_alphanumeric id = true then some id else none) ∧
    extract_album_id_from_argument [] = none ∧
    (∀ s : List Char, '/' ∉ s → ¬(s ≠ [] ∧ is_ascii_alphanumeric s = true) →
      extract_album_id_from_argument s = none) := by
  refine ⟨fun p id hid => ?_, by decide, fun s hs hbad => ?_⟩
  · have h1 : is_ascii_alphanumeric (p ++ '/' :: id) = false :=
      is_ascii_alphanumeric_slash_append p id
    have h2 : after_last_slash (p ++ '/' :: id) = some id := after_last_slash_append hid
    by_cases hne : id = []
    · subst hne
      simp [extract_album_id_from_argument, h1, h2]
    · by_cases ha : is_ascii_alphanumeric id = true
      · simp [extract_album_id_from_argument, h1, h2, ha, hne]
      · have ha' : is_ascii_alphanumeric id = false := by
          cases hb : is_ascii_alphanumeric id
          · rfl
          · exact absurd hb ha
        simp [extract_album_id_from_argument, h1, h2, ha', hne]
  · rcases not_and_or.mp hbad with h | h
    · have h0 : s = [] := not_not.mp h
      subst h0
      decide
    · have hf : is_ascii_alphanumeric s = false := by
        cases hb : is_ascii_alphanumeric s
        · rfl
        · exact absurd hb h
      simp [extract_album_id_from_argument, hf, after_last_slash_of_not_mem hs]

/-- Witness for C7: a URL-shaped input yields its trailing segment, and a
string ending in `/` fails. -/
theorem c7_witness :
    extract_album_id_from_argument
      (['e', 'x', '.', 'c', 'o', 'm', '/', 'a'] ++ '/' :: ['a', 'A', '1', 'b']) =
      some ['a', 'A', '1', 'b'] ∧
    extract_album_id_from_argument (['a', 'b'] ++ '/' :: []) = none := by
  constructor
  · rw [c7_extract_album_id_url.1 _ _ (by decide)]
    decide
  · rw [c7_extract_album_id_url.1 ['a', 'b'] [] (by decide)]
    decide

/-! ### Facts about the per-item download and the batch driver -/

/-- C1: when the destination file exists with length equal to
`media.size`, `download_media` returns `Ok` at once, issues no network
request for the media bytes, and leaves the file unchanged; when the length
differs, the file is truncated and the full fetched stream becomes the new
file contents. -/
theorem c1_download_media_skip_and_redownload
    (media : MediaResponse) (f : List Nat) (fetch : Except String (List Nat))
    (bytes : List Nat) :
    (f.length = media.size →
      download_media media (some f) fetch = ⟨true, f, false⟩) ∧
    (f.length ≠ media.size →
      download_media media (some f) (.ok bytes) = ⟨true, bytes, true⟩) := by
  constructor
  · intro h
    simp [download_media, h.symm]
  · intro h
    have h' : ¬media.size = f.length := fun hh => h hh.symm
    simp [download_media, h']

/-- Witness for C1: a size-3 item skips a 3-byte file untouched and with no
fetch; a wrong-size (empty) file is re-downloaded in full. -/
theorem c1_witness :
    download_media ⟨"u", "jpg", 3⟩ (some [7, 8, 9]) (.error "e") =
      ⟨true, [7, 8, 9], false⟩ ∧
    download_media ⟨"u", "jpg", 3⟩ (some []) (.ok [1, 2, 3]) =
      ⟨true, [1, 2, 3], true⟩ :=
  ⟨(c1_download_media_skip_and_redownload ⟨"u", "jpg", 3⟩ [7, 8, 9] (.error "e") []).1
      (by decide),
   (c1_download_media_skip_and_redownload ⟨"u", "jpg", 3⟩ [] (.error "e") [1, 2, 3]).2
      (by decide)⟩

/-- C2: when the metadata fetch succeeds, `main_` runs one download task per
item, every task runs to completion, each item's outcome depends only on its
own environment (so one item's failure cannot abort another's task), and the
run returns `Ok` — process exit code 0 — no matter how many items failed. -/
theorem c2_per_item_failures_isolated (items : List ItemEnv) :
    (main_ (.ok items)).result = .ok () ∧
    exit_code (main_ (.ok items)).result = 0 ∧
    (main_ (.ok items)).downloads =
      items.map (fun it => download_media it.media it.file0 it.fetch) ∧
    (main_ (.ok items)).downloads.length = items.length := by
  refine ⟨rfl, rfl, rfl, ?_⟩
  simp [main_]

/-- C8: when the metadata fetch fails, `main_` aborts with that error, the
destination-directory creation step never runs, no download task runs, and
the process exit code is non-zero. -/
theorem c8_metadata_failure_aborts_without_directory (e : String) :
    (main_ (.error e)).result = .error e ∧
    (main_ (.error e)).dirCreated = false ∧
    (main_ (.error e)).downloads = [] ∧
    exit_code (main_ (.error e)).result ≠ 0 := by
  exact ⟨rfl, rfl, rfl, by simp [main_, exit_code]⟩

/-! ### Digit counting and file naming -/

/-- Rust integer-to-`f32` cast (`n as f32`): round to nearest, ties to even
(the rounding Rust guarantees for integer-to-float casts).  Every `usize`
value casts to a finite `f32` whose exact value is a natural number: below
`2 ^ 24` the cast is exact, above it the result is the nearest multiple of
the unit in the last place `2 ^ (e - 23)`, `e = floor(log2 n)`, with ties
going to the even multiple.  The function returns that exact value. -/
def to_f32 (n : Nat) : Nat :=
  if n < 2 ^ 24 then n
  else
    let e := Nat.log 2 n
    let ulp := 2 ^ (e - 23)
    let r := n % ulp
    let d := n - r
    if 2 * r < ulp then d
    else if ulp < 2 * r then d + ulp
    else if d / ulp % 2 = 0 then d else d + ulp

/-- Rust `digits_in_decmial_representation` (source spelling): it returns
`1` for `n = 0` and otherwise `((n as f32).log10() + 1.0).floor() as usize`.
The integer-to-`f32` cast is modelled exactly by `to_f32`.  The remainder
of the pipeline - the platform's `log10f`, the `f32` addition of `1.0` and
the floor-cast - has platform-dependent precision (Rust documents `log10`'s
results as non-deterministic across platforms), so it enters the model as
an oracle `post` applied to the exact integer value of the cast; a theorem
quantified over `post` holds of the compiled program on every platform. -/
def digits_in_decmial_representation (post : Nat → Nat) (n : Nat) : Nat :=
  if n = 0 then 1 else post (to_f32 n)

/-- Modelled from the spec: the digit count the spec ascribes to the source,
`digits(0) = 1` and `digits(n) = floor(log10 n) + 1` evaluated in exact
arithmetic (`Nat.log 10 n` is exactly `floor(log10 n)` for `n >= 1`). -/
def digits_spec (n : Nat) : Nat :=
  if n = 0 then 1 else Nat.log 10 n + 1

/-- Decimal digits of `n`, most significant first, with explicit recursion
fuel; empty for `n = 0`.  `fuel >= n` is always enough fuel. -/
def decimal_digits : Nat → Nat → List Char
  | 0, _ => []
  | fuel + 1, n =>
    if n = 0 then []
    else decimal_digits fuel (n / 10) ++ [Char.ofNat (48 + n % 10)]

/-- Decimal rendering of `n : usize` as produced by Rust's integer
formatting. -/
def nat_decimal (n : Nat) : List Char :=
  if n = 0 then ['0'] else decimal_digits n n

/-- Rust `file_name(media, index, media_count)`, with the extension passed
directly (the source reads it from `media.ext`) and the digit-count oracle
`post` threaded through.  The source `assert!`s `index < media_count`; the
panic on a violated precondition is modelled as `none`.  The `usize`
subtraction `max_digits - index_digits` is modelled as truncated `Nat`
subtraction; at every input appearing in the theorems below its two
operands are equal, so the model is faithful there regardless of how a
usize underflow would behave. -/
def file_name (post : Nat → Nat) (ext : String) (index media_count : Nat) :
    Option String :=
  if index < media_count then
    let max_digits := digits_in_decmial_representation post (media_count - 1)
    let index_digits := digits_in_decmial_representation post index
    let leading_zeroes := max_digits - index_digits
    some ⟨List.replicate leading_zeroes '0' ++ nat_decimal index ++ '.' :: ext.data⟩
  else
    none

/-! ### The f32 cast collision at 10^8 -/

theorem to_f32_99999999 : to_f32 99999999 = 100000000 := by
  have he : Nat.log 2 99999999 = 26 :=
    Nat.log_eq_of_pow_le_of_lt_pow (by norm_num) (by norm_num : (99999999 : Nat) < 2 ^ 27)
  rw [to_f32, if_neg (by norm_num), he]
  decide

theorem to_f32_100000000 : to_f32 100000000 = 100000000 := by
  have he : Nat.log 2 100000000 = 26 :=
    Nat.log_eq_of_pow_le_of_lt_pow (by norm_num) (by norm_num : (100000000 : Nat) < 2 ^ 27)
  rw [to_f32, if_neg (by norm_num), he]
  decide

/-- Whatever the platform computes after the cast, the source's digit
function gives 99999999 and 100000000 the same digit count, because the two
inputs are indistinguishable after `as f32`. -/
theorem digits_collision (post : Nat → Nat) :
    digits_in_decmial_representation post 99999999 =
      digits_in_decmial_representation post 100000000 := by
  rw [digits_in_decmial_representation, digits_in_decmial_representation,
    if_neg (by norm_num), if_neg (by norm_num), to_f32_99999999, to_f32_100000000]

theorem digits_spec_99999999 : digits_spec 99999999 = 8 := by
  rw [digits_spec, if_neg (by norm_num),
    Nat.log_eq_of_pow_le_of_lt_pow (by norm_num) (by norm_num : (99999999 : Nat) < 10 ^ 8)]

theorem digits_spec_100000000 : digits_spec 100000000 = 9 := by
  rw [digits_spec, if_neg (by norm_num),
    Nat.log_eq_of_pow_le_of_lt_pow (by norm_num) (by norm_num : (100000000 : Nat) < 10 ^ 9)]

/-- When the index's digit count collides with the maximum index's, the name
gets no leading zeroes. -/
theorem file_name_no_pad {post : Nat → Nat} (ext : String) {index media_count : Nat}
    (h : index < media_count)
    (hcol : digits_in_decmial_representation post index =
      digits_in_decmial_representation post (media_count - 1)) :
    file_name post ext index media_count =
      some ⟨nat_decimal index ++ '.' :: ext.data⟩ := by
  rw [file_name, if_pos h]
  simp only [hcol, Nat.sub_self, List.replicate_zero, List.nil_append]

theorem string_lt_of_data_lex {a b : String}
    (h : List.Lex (· < ·) a.data b.data) : a < b := by
  rw [String.lt_iff_toList_lt]
  exact h

/-! ### Claims C3, C4, C5 fail on the source's f32 digit pipeline -/

/-- C5 (code bug): the source's digit function agrees with the claim at 0,
but the universal formula digits(n) = floor(log10 n) + 1 fails on every
platform: 99999999 and 100000000 collide after the `f32` cast, so the code
cannot return the required 8 for the first and 9 for the second. -/
theorem c5_digits_f32_cast_bug :
    (∀ post : Nat → Nat,
      digits_in_decmial_representation post 0 = 1 ∧
      digits_in_decmial_representation post 99999999 =
        digits_in_decmial_representation post 100000000 ∧
      ¬(∀ n : Nat, 1 ≤ n →
          digits_in_decmial_representation post n = digits_spec n)) ∧
    digits_spec 99999999 = 8 ∧ digits_spec 100000000 = 9 := by
  refine ⟨fun post => ⟨rfl, digits_collision post, fun hall => ?_⟩,
    digits_spec_99999999, digits_spec_100000000⟩
  have h1 := hall 99999999 (by norm_num)
  have h2 := hall 100000000 (by norm_num)
  have hcol := digits_collision post
  rw [digits_spec_99999999] at h1
  rw [digits_spec_100000000] at h2
  omega

/-- Witness for C5 at a concrete oracle. -/
theorem c5_witness :
    digits_in_decmial_representation (fun _ => 9) 99999999 =
      digits_in_decmial_representation (fun _ => 9) 100000000 ∧
    digits_spec 99999999 = 8 ∧ digits_spec 100000000 = 9 :=
  ⟨(c5_digits_f32_cast_bug.1 (fun _ => 9)).2.1,
    c5_digits_f32_cast_bug.2.1, c5_digits_f32_cast_bug.2.2⟩

/-- C3 (code bug): with 100000001 items, on every platform index 99999999
gets no leading zeroes (its digit count collides with the one of the
maximum index 100000000 after the `f32` cast), so the part of the name
before the dot has 8 characters while the claim requires
max(1, digits(100000000)) = 9. -/
theorem c3_file_name_length_bug :
    ∀ post : Nat → Nat,
      file_name post "jpg" 99999999 100000001 = some "99999999.jpg" ∧
      ("99999999.jpg" : String).data =
        nat_decimal 99999999 ++ '.' :: ("jpg" : String).data ∧
      (nat_decimal 99999999).length ≠ max 1 (digits_spec (100000001 - 1)) := by
  intro post
  have hcol : digits_in_decmial_representation post 99999999 =
      digits_in_decmial_representation post (100000001 - 1) := by
    rw [show (100000001 : Nat) - 1 = 100000000 from rfl]
    exact digits_collision post
  refine ⟨?_, by decide, ?_⟩
  · rw [file_name_no_pad "jpg" (by norm_num) hcol]
    decide
  · rw [show (100000001 : Nat) - 1 = 100000000 from rfl, digits_spec_100000000]
    decide

/-- Witness for C3 at a concrete oracle. -/
theorem c3_witness :
    file_name (fun _ => 9) "jpg" 99999999 100000001 = some "99999999.jpg" :=
  (c3_file_name_length_bug (fun _ => 9)).1

/-- C4 (code bug): with 100000001 items, on every platform the indices
99999999 and 100000000 both collide to the digit count of 100000000 after
the `f32` cast, so neither name is padded and the name of the smaller index
sorts lexicographically after the name of the larger one - the claimed
order is inverted. -/
theorem c4_file_name_order_bug :
    ∀ post : Nat → Nat,
      file_name post "jpg" 99999999 100000001 = some "99999999.jpg" ∧
      file_name post "png" 100000000 100000001 = some "100000000.png" ∧
      ¬(("99999999.jpg" : String) < "100000000.png") ∧
      ("100000000.png" : String) < "99999999.jpg" := by
  intro post
  have hcol1 : digits_in_decmial_representation post 99999999 =
      digits_in_decmial_representation post (100000001 - 1) := by
    rw [show (100000001 : Nat) - 1 = 100000000 from rfl]
    exact digits_collision post
  have hcol2 : digits_in_decmial_representation post 100000000 =
      digits_in_decmial_representation post (100000001 - 1) := by
    rw [show (100000001 : Nat) - 1 = 100000000 from rfl]
  have hnlex : ¬List.Lex (· < ·) ("99999999.jpg" : String).data
      ("100000000.png" : String).data := by decide
  have hlex : List.Lex (· < ·) ("100000000.png" : String).data
      ("99999999.jpg" : String).data := by decide
  refine ⟨?_, ?_, ?_, string_lt_of_data_lex hlex⟩
  · rw [file_name_no_pad "jpg" (by norm_num) hcol1]
    decide
  · rw [file_name_no_pad "png" (by norm_num) hcol2]
    decide
  · rw [String.lt_iff_toList_lt]
    exact fun hlt => hnlex hlt

/-- Witness for C4 at a concrete oracle. -/
theorem c4_witness :
    file_name (fun _ => 9) "png" 100000000 100000001 = some "100000000.png" ∧
    ("100000000.png" : String) < "99999999.jpg" :=
  ⟨(c4_file_name_order_bug (fun _ => 9)).2.1,
    (c4_file_name_order_bug (fun _ => 9)).2.2.2⟩
